import Mathlib

/-!
Verification of the race-observation probe (`src/child.c`) and the process
supervisor (`src/parent.c`) of the OSaSP lab03 repository, as a shallow
embedding: the C globals become fields of explicit state records, the signal
handlers and registry operations become pure Lean functions on those records,
and OS-dependent outcomes (timer rearm success, `kill(2)` results, `realloc`
success) become explicit parameters.
-/

/-- Linux signal number for SIGALRM, used by the probe's timer. -/
def SIGALRM : Nat := 14

/-- Linux signal number for SIGUSR1 (enable probe output). -/
def SIGUSR1 : Nat := 10

/-- Linux signal number for SIGUSR2 (disable probe output). -/
def SIGUSR2 : Nat := 12

/-- Linux signal number for SIGINT. -/
def SIGINT : Nat := 2

/-- Linux signal number for SIGQUIT. -/
def SIGQUIT : Nat := 3

/-- Linux signal number for SIGTERM. -/
def SIGTERM : Nat := 15

/-- Linux signal number for SIGCHLD. -/
def SIGCHLD : Nat := 17

/-- Linux signal number for SIGKILL, used to terminate children. -/
def SIGKILL : Nat := 9

/-- Output channels of a process: stdout is the primary channel of the probe's
final report, stderr its secondary diagnostic channel. -/
inductive Channel
  | stdoutCh
  | stderrCh
deriving DecidableEq

namespace Child

/-- `NUM_REPETITIONS` from `child.c`: the configured repetition budget. -/
def NUM_REPETITIONS : Nat := 10001

/-- The mutable globals of `child.c`: the shared pair `g_shared_pair`
(fields `v1`, `v2`), the four outcome counters `g_count00..g_count11`,
the flags `g_alarm_flag`, `g_repetitions_done`, `g_output_enabled`. -/
structure ChildState where
  v1 : Int
  v2 : Int
  count00 : Nat
  count01 : Nat
  count10 : Nat
  count11 : Nat
  alarm_flag : Bool
  repetitions_done : Nat
  output_enabled : Bool
deriving DecidableEq

/-- `initialize_globals` of `child.c`: zero everything, output enabled. -/
def init_globals : ChildState :=
  { v1 := 0, v2 := 0, count00 := 0, count01 := 0, count10 := 0, count11 := 0,
    alarm_flag := false, repetitions_done := 0, output_enabled := true }

/-- The classification cascade of `handle_alarm` in `child.c` (lines 196-202):
read both fields of the shared pair and bump the counter selected by the fixed
comparison order 00, then 01, then 10, else 11. -/
def classify_bump (s : ChildState) : ChildState :=
  if s.v1 = 0 ∧ s.v2 = 0 then { s with count00 := s.count00 + 1 }
  else if s.v1 = 0 ∧ s.v2 = 1 then { s with count01 := s.count01 + 1 }
  else if s.v1 = 1 ∧ s.v2 = 0 then { s with count10 := s.count10 + 1 }
  else { s with count11 := s.count11 + 1 }

/-- `handle_alarm` of `child.c`: on SIGALRM, read the shared pair, classify it
and bump that counter, bump the repetition counter if below budget, and set
the alarm flag. -/
def handle_alarm (sig : Nat) (s : ChildState) : ChildState :=
  if sig = SIGALRM then
    let s1 : ChildState := classify_bump s
    let s2 : ChildState :=
      if s1.repetitions_done < NUM_REPETITIONS then
        { s1 with repetitions_done := s1.repetitions_done + 1 }
      else s1
    { s2 with alarm_flag := true }
  else s

/-- `handle_usr_signals` of `child.c`: SIGUSR1 enables output, SIGUSR2
disables it, anything else is ignored. -/
def handle_usr_signals (sig : Nat) (s : ChildState) : ChildState :=
  if sig = SIGUSR1 then { s with output_enabled := true }
  else if sig = SIGUSR2 then { s with output_enabled := false }
  else s

/-- One iteration's environment choices in the probe's main loop: the pair
value the spin loop has left in `g_shared_pair` at the instant SIGALRM is
delivered, and whether the subsequent `setup_timer` rearm succeeds. -/
structure AlarmEvent where
  obs1 : Int
  obs2 : Int
  rearm_ok : Bool
deriving DecidableEq

/-- The main repetition loop of `child.c` `main` (lines 107-131): while the
repetition count is below budget, clear the alarm flag, spin mutating the
shared pair until SIGALRM fires (the handler observes the pair value of the
event), then rearm the timer if still below budget, breaking out on a rearm
failure. The event list supplies the environment for each iteration. -/
def run_loop : List AlarmEvent → ChildState → ChildState
  | [], s => s
  | e :: rest, s =>
    if s.repetitions_done < NUM_REPETITIONS then
      let sSpin : ChildState := { s with alarm_flag := false, v1 := e.obs1, v2 := e.obs2 }
      let sAlarm : ChildState := handle_alarm SIGALRM sSpin
      if sAlarm.repetitions_done < NUM_REPETITIONS then
        if e.rearm_ok then run_loop rest sAlarm else sAlarm
      else sAlarm
    else s

/-- A whole probe run: the main loop started from the freshly initialized
globals. -/
def child_run (evs : List AlarmEvent) : ChildState :=
  run_loop evs init_globals

/-- Lines the reporting section of `child.c` `main` can emit. -/
inductive CLine
  | statsLine (ppid pid : Nat) (c00 c01 c10 c11 : Nat)
  | suppressedNotice (pid : Nat)
  | exitingNotice (pid : Nat)
deriving DecidableEq

/-- The reporting section of `child.c` `main` (lines 135-155): if output is
enabled print the single statistics line to stdout, otherwise print a
suppression notice to stderr; either way print the exit notice to stderr. -/
def print_statistics (parent_pid my_pid : Nat) (s : ChildState) : List (Channel × CLine) :=
  (if s.output_enabled then
    [(Channel.stdoutCh, CLine.statsLine parent_pid my_pid s.count00 s.count01 s.count10 s.count11)]
  else
    [(Channel.stderrCh, CLine.suppressedNotice my_pid)])
  ++ [(Channel.stderrCh, CLine.exitingNotice my_pid)]

/-- Sum of the four outcome counters. -/
def csum (s : ChildState) : Nat :=
  s.count00 + s.count01 + s.count10 + s.count11

theorem classify_bump_csum (s : ChildState) :
    csum (classify_bump s) = csum s + 1 := by
  unfold classify_bump csum
  split <;> try split
  all_goals (try split) <;> simp <;> omega

theorem classify_bump_rep (s : ChildState) :
    (classify_bump s).repetitions_done = s.repetitions_done := by
  unfold classify_bump
  split <;> try split
  all_goals (try split) <;> rfl

theorem classify_bump_gate (s : ChildState) :
    (classify_bump s).output_enabled = s.output_enabled := by
  unfold classify_bump
  split <;> try split
  all_goals (try split) <;> rfl

theorem handle_alarm_csum (s : ChildState) :
    csum (handle_alarm SIGALRM s) = csum s + 1 := by
  unfold handle_alarm
  rw [if_pos rfl]
  dsimp only
  split <;> simpa [csum] using classify_bump_csum s

theorem handle_alarm_rep_lt (s : ChildState)
    (h : s.repetitions_done < NUM_REPETITIONS) :
    (handle_alarm SIGALRM s).repetitions_done = s.repetitions_done + 1 := by
  unfold handle_alarm
  rw [if_pos rfl]
  dsimp only
  rw [if_pos (by rw [classify_bump_rep]; exact h)]
  simp [classify_bump_rep]

theorem handle_alarm_rep_ge (s : ChildState)
    (h : NUM_REPETITIONS ≤ s.repetitions_done) :
    (handle_alarm SIGALRM s).repetitions_done = s.repetitions_done := by
  unfold handle_alarm
  rw [if_pos rfl]
  dsimp only
  rw [if_neg (by rw [classify_bump_rep]; omega)]
  simp [classify_bump_rep]

theorem handle_alarm_gate (sig : Nat) (s : ChildState) :
    (handle_alarm sig s).output_enabled = s.output_enabled := by
  unfold handle_alarm
  split
  · dsimp only
    split <;> simp [classify_bump_gate]
  · rfl

theorem run_loop_invariant (evs : List AlarmEvent) (s : ChildState)
    (hsum : csum s = s.repetitions_done)
    (hle : s.repetitions_done ≤ NUM_REPETITIONS) :
    csum (run_loop evs s) = (run_loop evs s).repetitions_done ∧
      (run_loop evs s).repetitions_done ≤ NUM_REPETITIONS := by
  induction evs generalizing s with
  | nil => exact ⟨hsum, hle⟩
  | cons e rest ih =>
    unfold run_loop
    by_cases hlt : s.repetitions_done < NUM_REPETITIONS
    · simp only [if_pos hlt]
      set sSpin : ChildState := { s with alarm_flag := false, v1 := e.obs1, v2 := e.obs2 } with hspin
      have hspinsum : csum sSpin = sSpin.repetitions_done := by
        simpa [csum, hspin] using hsum
      have hspinlt : sSpin.repetitions_done < NUM_REPETITIONS := hlt
      have hsum2 : csum (handle_alarm SIGALRM sSpin) =
          (handle_alarm SIGALRM sSpin).repetitions_done := by
        rw [handle_alarm_csum, handle_alarm_rep_lt sSpin hspinlt, hspinsum]
      have hle2 : (handle_alarm SIGALRM sSpin).repetitions_done ≤ NUM_REPETITIONS := by
        rw [handle_alarm_rep_lt sSpin hspinlt]
        omega
      split
      · split
        · exact ih _ hsum2 hle2
        · exact ⟨hsum2, hle2⟩
      · exact ⟨hsum2, hle2⟩
    · simp only [if_neg hlt]
      exact ⟨hsum, hle⟩

theorem run_loop_gate (evs : List AlarmEvent) (s : ChildState) :
    (run_loop evs s).output_enabled = s.output_enabled := by
  induction evs generalizing s with
  | nil => rfl
  | cons e rest ih =>
    unfold run_loop
    dsimp only
    split
    · split
      · split
        · rw [ih]
          exact handle_alarm_gate SIGALRM _
        · exact handle_alarm_gate SIGALRM _
      · exact handle_alarm_gate SIGALRM _
    · rfl

end Child

namespace Parent

/-- `INITIAL_CHILD_CAPACITY` from `parent.c`. -/
def INITIAL_CHILD_CAPACITY : Nat := 8

/-- `SIZE_MAX` on the 64-bit target. -/
def SIZE_MAX : Nat := 2 ^ 64 - 1

/-- `sizeof(pid_t)` on the target (a 32-bit signed integer type). -/
def sizeof_pid_t : Nat := 4

/-- Possible results of a `kill(2)` call on one target, as `parent.c`
distinguishes them: success, failure with `ESRCH` (target already gone), or
failure with any other errno. -/
inductive KOutcome
  | success
  | esrch
  | otherError
deriving DecidableEq

/-- The child registry of `parent.c`: the live prefix `g_child_pids[0..g_child_count)`
as a list (so `g_child_count` is the list length) together with
`g_child_capacity`. -/
structure Registry where
  pids : List Int
  capacity : Nat
deriving DecidableEq

/-- Result of `add_child_pid` in `parent.c`: either the pid was appended, or
the process aborted on an overflow guard (without touching the just-spawned
child), or it sent SIGKILL to the just-spawned child and reaped it with
`waitpid` before aborting (the `realloc` failure path). -/
inductive AddResult
  | ok (r : Registry)
  | abortNoKill
  | abortKillReap (orphan : Int)
deriving DecidableEq

/-- `add_child_pid` of `parent.c` (lines 530-561): grow the array when full
(doubling, with two overflow guards that `abort()` directly and a `realloc`
whose failure kills and reaps the new child before `abort()`), then store the
pid at index `g_child_count` and increment the count. `alloc_ok` says whether
the `realloc` call succeeds. -/
def add_child_pid (alloc_ok : Bool) (pid : Int) (r : Registry) : AddResult :=
  if r.capacity ≤ r.pids.length then
    let new_capacity : Nat :=
      if r.capacity = 0 then INITIAL_CHILD_CAPACITY else r.capacity * 2 % 2 ^ 64
    if r.capacity > SIZE_MAX / 2 ∧ r.capacity ≠ 0 then AddResult.abortNoKill
    else if new_capacity > SIZE_MAX / sizeof_pid_t then AddResult.abortNoKill
    else if alloc_ok = false then AddResult.abortKillReap pid
    else AddResult.ok { pids := r.pids ++ [pid], capacity := new_capacity }
  else AddResult.ok { pids := r.pids ++ [pid], capacity := r.capacity }

/-- `remove_child_pid_at_index` of `parent.c` (lines 575-592): an index at or
past the current count is only reported and nothing changes; otherwise the
entries after the index are shifted down by one (`memmove`) and the count is
decremented, which on the live prefix is exactly removal of the indexed
element. -/
def remove_child_pid_at_index (index : Nat) (pids : List Int) : List Int :=
  if pids.length ≤ index then pids
  else pids.take index ++ pids.drop (index + 1)

/-- `kill_last_child` of `parent.c` (lines 811-853): on an empty registry only
report; otherwise SIGKILL the entry at the last index and remove it from the
registry when the kill succeeded or failed with `ESRCH`, keeping it on any
other failure. `o` is the outcome of the `kill(2)` call. -/
def kill_last_child (o : KOutcome) (pids : List Int) : List Int :=
  if pids.length = 0 then pids
  else
    match o with
    | KOutcome.otherError => pids
    | _ => remove_child_pid_at_index (pids.length - 1) pids

/-- The backwards iteration of `kill_all_children` in `parent.c` (lines
647-676): for `i = count` down to `1`, SIGKILL the entry at index `i - 1` and
remove it on success or `ESRCH`, keep it on any other failure. `o` gives each
pid's `kill(2)` outcome. -/
def kill_all_loop (o : Int → KOutcome) : Nat → List Int → List Int
  | 0, pids => pids
  | Nat.succ i, pids =>
    match o (pids.getD i 0) with
    | KOutcome.otherError => kill_all_loop o i pids
    | _ => kill_all_loop o i (remove_child_pid_at_index i pids)

/-- The supervisor state that `cleanup_resources` touches: the registry live
prefix and capacity, whether `g_child_pids` is non-NULL (storage allocated),
and whether the terminal is still in raw mode. -/
structure SupState where
  pids : List Int
  capacity : Nat
  allocated : Bool
  raw_mode : Bool
deriving DecidableEq

/-- `disable_raw_mode` of `parent.c` (lines 333-365): restore the saved
terminal attributes only when stdin is a terminal and the saved attributes
look initialized; otherwise the terminal mode is left as it is. -/
def disable_raw_mode (is_tty orig_saved : Bool) (raw : Bool) : Bool :=
  if is_tty = false then raw
  else if orig_saved = false then raw
  else false

/-- `cleanup_resources` of `parent.c` (lines 376-404): disable raw mode, kill
all tracked children (`kill_all_children "Parent exiting."`), then if the pid
storage is allocated free it and zero the count and capacity. `o` gives each
pid's `kill(2)` outcome during the kill-all pass. -/
def cleanup_resources (is_tty orig_saved : Bool) (o : Int → KOutcome) (s : SupState) : SupState :=
  let s1 : SupState := { s with raw_mode := disable_raw_mode is_tty orig_saved s.raw_mode }
  let s2 : SupState := { s1 with pids := kill_all_loop o s1.pids.length s1.pids }
  if s2.allocated then { s2 with pids := [], capacity := 0, allocated := false }
  else s2

/-- One attempted signal delivery of `signal_all_children`: the target pid and
the signal sent to it. -/
structure SendEvent where
  target : Int
  signal : Nat
deriving DecidableEq

/-- The tallies a supervisor summary line could name. `parent.c`'s summary
(line 734) prints the attempted total, the success count and the
already-exited (`ESRCH`) count; the `otherErrors` form exists to express that
no such tally is printed. -/
inductive ReportedTally
  | attempted (n : Nat)
  | succeeded (n : Nat)
  | alreadyGone (n : Nat)
  | otherErrors (n : Nat)
deriving DecidableEq

/-- The per-target loop of `signal_all_children` in `parent.c` (lines
711-731): walk the registry in order, counting successful deliveries and
`ESRCH` failures; other failures are only warned about, not counted. -/
def signal_loop_counts (o : Int → KOutcome) (pids : List Int) : Nat × Nat :=
  List.foldl
    (fun acc pid =>
      match o pid with
      | KOutcome.success => (acc.1 + 1, acc.2)
      | KOutcome.esrch => (acc.1, acc.2 + 1)
      | KOutcome.otherError => acc)
    (0, 0) pids

/-- `signal_all_children` of `parent.c` (lines 698-736): on an empty registry
only report; otherwise send `sig` to every registered pid in order (never
touching the registry), and print one summary with the attempted total, the
success tally and the `ESRCH` tally. Returns the registry afterwards, the
delivery attempts in order, and the tallies of the summary line. -/
def signal_all_children (o : Int → KOutcome) (sig : Nat) (pids : List Int) :
    List Int × List SendEvent × List ReportedTally :=
  if pids.length = 0 then (pids, [], [])
  else
    let counts := signal_loop_counts o pids
    (pids, pids.map (fun p => SendEvent.mk p sig),
     [ReportedTally.attempted pids.length, ReportedTally.succeeded counts.1,
      ReportedTally.alreadyGone counts.2])

/-- Number of targets whose `kill(2)` outcome is an error other than
`ESRCH`. -/
def other_error_count (o : Int → KOutcome) (pids : List Int) : Nat :=
  (pids.filter (fun p => o p == KOutcome.otherError)).length

/-- Diagnostic messages `handle_signal` of `parent.c` can write. -/
inductive PMsg
  | waitpidErrorMsg
  | terminationNoticeMsg
deriving DecidableEq

/-- The supervisor program state visible to `handle_signal`: the registry and
the termination flag `g_terminate_flag`. -/
structure ParentSigState where
  pids : List Int
  capacity : Nat
  terminate_flag : Bool
deriving DecidableEq

/-- `handle_signal` of `parent.c` (lines 419-451): on SIGCHLD drain all
terminated children with `waitpid(WNOHANG)` (touching only the OS process
table; `reap_error` says whether that drain ended in an unexpected `waitpid`
error, which is only logged); on SIGINT/SIGTERM/SIGQUIT set
`g_terminate_flag` and write a termination notice to stderr. Returns the new
program state and the messages written. -/
def handle_signal (reap_error : Bool) (sig : Nat) (s : ParentSigState) :
    ParentSigState × List (Channel × PMsg) :=
  if sig = SIGCHLD then
    (s, if reap_error then [(Channel.stderrCh, PMsg.waitpidErrorMsg)] else [])
  else if sig = SIGINT ∨ sig = SIGTERM ∨ sig = SIGQUIT then
    ({ s with terminate_flag := true }, [(Channel.stderrCh, PMsg.terminationNoticeMsg)])
  else (s, [])

end Parent

namespace Child

theorem handle_alarm_counts (s : ChildState) :
    (handle_alarm SIGALRM s).count00 = (classify_bump s).count00 ∧
    (handle_alarm SIGALRM s).count01 = (classify_bump s).count01 ∧
    (handle_alarm SIGALRM s).count10 = (classify_bump s).count10 ∧
    (handle_alarm SIGALRM s).count11 = (classify_bump s).count11 := by
  unfold handle_alarm
  rw [if_pos rfl]
  dsimp only
  split <;> exact ⟨rfl, rfl, rfl, rfl⟩

end Child

/-- C1: over any completed probe run, including runs cut short by a timer
rearm failure, the four outcome counters sum to the number of repetitions
completed, which never exceeds the budget `NUM_REPETITIONS`; moreover each
`handle_alarm` invocation adds exactly one to the counter total and bumps the
repetition counter exactly when it is still below the budget. -/
theorem c1_probe_counter_sum (evs : List Child.AlarmEvent) :
    Child.csum (Child.child_run evs) = (Child.child_run evs).repetitions_done ∧
    (Child.child_run evs).repetitions_done ≤ Child.NUM_REPETITIONS ∧
    (∀ s : Child.ChildState,
      Child.csum (Child.handle_alarm SIGALRM s) = Child.csum s + 1) ∧
    (∀ s : Child.ChildState, s.repetitions_done < Child.NUM_REPETITIONS →
      (Child.handle_alarm SIGALRM s).repetitions_done = s.repetitions_done + 1) ∧
    (∀ s : Child.ChildState, Child.NUM_REPETITIONS ≤ s.repetitions_done →
      (Child.handle_alarm SIGALRM s).repetitions_done = s.repetitions_done) := by
  have h := Child.run_loop_invariant evs Child.init_globals (by rfl) (by decide)
  exact ⟨h.1, h.2, Child.handle_alarm_csum,
    fun s hs => Child.handle_alarm_rep_lt s hs,
    fun s hs => Child.handle_alarm_rep_ge s hs⟩

/-- Witness for C1 at a concrete one-event run and a concrete handler call. -/
theorem c1_probe_counter_sum_witness :
    Child.csum (Child.child_run [Child.AlarmEvent.mk 0 1 true]) =
      (Child.child_run [Child.AlarmEvent.mk 0 1 true]).repetitions_done ∧
    (Child.handle_alarm SIGALRM Child.init_globals).repetitions_done =
      Child.init_globals.repetitions_done + 1 :=
  ⟨(c1_probe_counter_sum [Child.AlarmEvent.mk 0 1 true]).1,
   (c1_probe_counter_sum []).2.2.2.1 Child.init_globals (by decide)⟩

/-- C5: `handle_alarm` classifies the sampled pair with the fixed comparison
order 00, then 01, then 10, else 11, and for every sampled pair value it
increments exactly the matched bucket's counter while leaving the other three
counters unchanged. -/
theorem c5_alarm_classification (s : Child.ChildState) :
    ((s.v1 = 0 ∧ s.v2 = 0) →
      (Child.handle_alarm SIGALRM s).count00 = s.count00 + 1 ∧
      (Child.handle_alarm SIGALRM s).count01 = s.count01 ∧
      (Child.handle_alarm SIGALRM s).count10 = s.count10 ∧
      (Child.handle_alarm SIGALRM s).count11 = s.count11) ∧
    ((¬(s.v1 = 0 ∧ s.v2 = 0) ∧ (s.v1 = 0 ∧ s.v2 = 1)) →
      (Child.handle_alarm SIGALRM s).count00 = s.count00 ∧
      (Child.handle_alarm SIGALRM s).count01 = s.count01 + 1 ∧
      (Child.handle_alarm SIGALRM s).count10 = s.count10 ∧
      (Child.handle_alarm SIGALRM s).count11 = s.count11) ∧
    ((¬(s.v1 = 0 ∧ s.v2 = 0) ∧ ¬(s.v1 = 0 ∧ s.v2 = 1) ∧ (s.v1 = 1 ∧ s.v2 = 0)) →
      (Child.handle_alarm SIGALRM s).count00 = s.count00 ∧
      (Child.handle_alarm SIGALRM s).count01 = s.count01 ∧
      (Child.handle_alarm SIGALRM s).count10 = s.count10 + 1 ∧
      (Child.handle_alarm SIGALRM s).count11 = s.count11) ∧
    ((¬(s.v1 = 0 ∧ s.v2 = 0) ∧ ¬(s.v1 = 0 ∧ s.v2 = 1) ∧ ¬(s.v1 = 1 ∧ s.v2 = 0)) →
      (Child.handle_alarm SIGALRM s).count00 = s.count00 ∧
      (Child.handle_alarm SIGALRM s).count01 = s.count01 ∧
      (Child.handle_alarm SIGALRM s).count10 = s.count10 ∧
      (Child.handle_alarm SIGALRM s).count11 = s.count11 + 1) := by
  have hc := Child.handle_alarm_counts s
  rw [hc.1, hc.2.1, hc.2.2.1, hc.2.2.2]
  refine ⟨fun h => ?_, fun h => ?_, fun h => ?_, fun h => ?_⟩
  · unfold Child.classify_bump
    rw [if_pos h]
    exact ⟨rfl, rfl, rfl, rfl⟩
  · unfold Child.classify_bump
    rw [if_neg h.1, if_pos h.2]
    exact ⟨rfl, rfl, rfl, rfl⟩
  · unfold Child.classify_bump
    rw [if_neg h.1, if_neg h.2.1, if_pos h.2.2]
    exact ⟨rfl, rfl, rfl, rfl⟩
  · unfold Child.classify_bump
    rw [if_neg h.1, if_neg h.2.1, if_neg h.2.2]
    exact ⟨rfl, rfl, rfl, rfl⟩

/-- Witness for C5 at the torn sample (1,0). -/
theorem c5_alarm_classification_witness :
    (Child.handle_alarm SIGALRM
        (Child.ChildState.mk 1 0 0 0 0 0 false 0 true)).count10 =
      (Child.ChildState.mk 1 0 0 0 0 0 false 0 true).count10 + 1 ∧
    (Child.handle_alarm SIGALRM
        (Child.ChildState.mk 1 0 0 0 0 0 false 0 true)).count00 =
      (Child.ChildState.mk 1 0 0 0 0 0 false 0 true).count00 :=
  have h := (c5_alarm_classification (Child.ChildState.mk 1 0 0 0 0 0 false 0 true)).2.2.1
    (by decide)
  ⟨h.2.2.1, h.1⟩

/-- C2: after the repetition loop ends, a probe with the output gate enabled
prints exactly the single statistics line (parent pid, own pid, four
counters) on stdout, while a probe with the gate disabled prints no
statistics line and instead a suppression notice on stderr. -/
theorem c2_output_gate_report (ppid mypid : Nat) (s : Child.ChildState) :
    (s.output_enabled = true →
      Child.print_statistics ppid mypid s =
        [(Channel.stdoutCh,
          Child.CLine.statsLine ppid mypid s.count00 s.count01 s.count10 s.count11),
         (Channel.stderrCh, Child.CLine.exitingNotice mypid)]) ∧
    (s.output_enabled = false →
      Child.print_statistics ppid mypid s =
        [(Channel.stderrCh, Child.CLine.suppressedNotice mypid),
         (Channel.stderrCh, Child.CLine.exitingNotice mypid)]) := by
  constructor <;> intro h <;> simp [Child.print_statistics, h]

/-- Witness for C2 with the gate enabled and with the gate disabled. -/
theorem c2_output_gate_report_witness :
    Child.print_statistics 1 2 (Child.ChildState.mk 0 0 3 4 5 6 false 18 true) =
      [(Channel.stdoutCh, Child.CLine.statsLine 1 2 3 4 5 6),
       (Channel.stderrCh, Child.CLine.exitingNotice 2)] ∧
    Child.print_statistics 1 2 (Child.ChildState.mk 0 0 3 4 5 6 false 18 false) =
      [(Channel.stderrCh, Child.CLine.suppressedNotice 2),
       (Channel.stderrCh, Child.CLine.exitingNotice 2)] :=
  ⟨(c2_output_gate_report 1 2 (Child.ChildState.mk 0 0 3 4 5 6 false 18 true)).1 rfl,
   (c2_output_gate_report 1 2 (Child.ChildState.mk 0 0 3 4 5 6 false 18 false)).2 rfl⟩

/-- C9: the output gate starts enabled (`initialize_globals` sets it to 1),
the repetition loop never changes it, and so a probe that receives no
ENABLE-OUTPUT or DISABLE-OUTPUT signal during its run emits the final
statistics line on stdout at exit. -/
theorem c9_default_gate_enabled (evs : List Child.AlarmEvent) (ppid mypid : Nat) :
    Child.init_globals.output_enabled = true ∧
    (Child.child_run evs).output_enabled = true ∧
    Child.print_statistics ppid mypid (Child.child_run evs) =
      [(Channel.stdoutCh,
        Child.CLine.statsLine ppid mypid (Child.child_run evs).count00
          (Child.child_run evs).count01 (Child.child_run evs).count10
          (Child.child_run evs).count11),
       (Channel.stderrCh, Child.CLine.exitingNotice mypid)] := by
  have hg : (Child.child_run evs).output_enabled = true := by
    unfold Child.child_run
    rw [Child.run_loop_gate]
    decide
  refine ⟨by decide, hg, ?_⟩
  simp [Child.print_statistics, hg]

namespace Parent

theorem remove_last_eq_dropLast (pids : List Int) (h : pids ≠ []) :
    remove_child_pid_at_index (pids.length - 1) pids = pids.dropLast := by
  have hlen : 0 < pids.length := List.length_pos.mpr h
  unfold remove_child_pid_at_index
  rw [if_neg (by omega)]
  have hsucc : pids.length - 1 + 1 = pids.length := by omega
  rw [hsucc, List.drop_length, List.append_nil, List.dropLast_eq_take]

theorem signal_loop_counts_eq (o : Int → KOutcome) (pids : List Int) :
    signal_loop_counts o pids =
      ((pids.filter (fun p => o p == KOutcome.success)).length,
       (pids.filter (fun p => o p == KOutcome.esrch)).length) := by
  have go : ∀ (l : List Int) (a b : Nat),
      List.foldl
        (fun acc pid =>
          match o pid with
          | KOutcome.success => (acc.1 + 1, acc.2)
          | KOutcome.esrch => (acc.1, acc.2 + 1)
          | KOutcome.otherError => acc)
        (a, b) l =
      (a + (l.filter (fun p => o p == KOutcome.success)).length,
       b + (l.filter (fun p => o p == KOutcome.esrch)).length) := by
    intro l
    induction l with
    | nil => intro a b; simp
    | cons p rest ih =>
      intro a b
      simp only [List.foldl_cons, List.filter_cons]
      cases ho : o p <;>
        simp [ho, ih, Nat.add_assoc, Nat.add_comm, Nat.add_left_comm]
  unfold signal_loop_counts
  rw [go]
  simp

end Parent

/-- C10: the registry removal operation invoked with an index at or past the
current count leaves the registry unchanged: it only reports the invalid
index. -/
theorem c10_remove_invalid_index (index : Nat) (pids : List Int)
    (h : pids.length ≤ index) :
    Parent.remove_child_pid_at_index index pids = pids := by
  unfold Parent.remove_child_pid_at_index
  rw [if_pos h]

/-- Witness for C10 at index 5 on a two-entry registry. -/
theorem c10_remove_invalid_index_witness :
    [(1 : Int), 2].length ≤ 5 ∧
    Parent.remove_child_pid_at_index 5 [(1 : Int), 2] = [(1 : Int), 2] :=
  ⟨by decide, c10_remove_invalid_index 5 [(1 : Int), 2] (by decide)⟩

/-- C4: `kill_last_child` on a non-empty registry targets the last-inserted
entry and, when the SIGKILL succeeded or failed because the target no longer
exists, removes exactly that entry (the registry becomes its own dropLast,
one entry shorter); on any other delivery failure the registry is unchanged;
on an empty registry nothing changes. -/
theorem c4_kill_last (pids : List Int) (o : Parent.KOutcome) :
    (pids = [] → Parent.kill_last_child o pids = pids) ∧
    (pids ≠ [] → (o = Parent.KOutcome.success ∨ o = Parent.KOutcome.esrch) →
      Parent.kill_last_child o pids = pids.dropLast ∧
      (Parent.kill_last_child o pids).length + 1 = pids.length) ∧
    (o = Parent.KOutcome.otherError → Parent.kill_last_child o pids = pids) := by
  refine ⟨fun h => ?_, fun h ho => ?_, fun h => ?_⟩
  · subst h
    rfl
  · have hlen : 0 < pids.length := List.length_pos.mpr h
    have hrm : Parent.kill_last_child o pids = pids.dropLast := by
      unfold Parent.kill_last_child
      rw [if_neg (by omega)]
      rcases ho with ho | ho <;> subst ho <;>
        exact Parent.remove_last_eq_dropLast pids h
    refine ⟨hrm, ?_⟩
    rw [hrm, List.length_dropLast]
    omega
  · subst h
    unfold Parent.kill_last_child
    split
    · rfl
    · rfl

/-- Witness for C4: killing the last of two children removes exactly the
last-inserted one. -/
theorem c4_kill_last_witness :
    Parent.kill_last_child Parent.KOutcome.success [(4 : Int), 7] =
      List.dropLast [(4 : Int), 7] ∧
    (Parent.kill_last_child Parent.KOutcome.success [(4 : Int), 7]).length + 1 =
      [(4 : Int), 7].length ∧
    Parent.kill_last_child Parent.KOutcome.otherError [(4 : Int), 7] = [(4 : Int), 7] :=
  have h := (c4_kill_last [(4 : Int), 7] Parent.KOutcome.success).2.1
    (by decide) (Or.inl rfl)
  ⟨h.1, h.2, (c4_kill_last [(4 : Int), 7] Parent.KOutcome.otherError).2.2 rfl⟩

/-- C6 counterexample: with one registered child whose delivery fails with an
error other than ESRCH, the summary the supervisor prints carries only the
attempted total, the success tally and the already-gone tally; the one
other-error outcome appears in no reported tally, so the report does not
cover all three outcomes. -/
theorem c6_broadcast_tallies_counterexample :
    (Parent.signal_all_children (fun _ => Parent.KOutcome.otherError) SIGUSR1
        [(5 : Int)]).2.2 =
      [Parent.ReportedTally.attempted 1, Parent.ReportedTally.succeeded 0,
       Parent.ReportedTally.alreadyGone 0] ∧
    Parent.other_error_count (fun _ => Parent.KOutcome.otherError) [(5 : Int)] = 1 ∧
    Parent.ReportedTally.otherErrors 1 ∉
      (Parent.signal_all_children (fun _ => Parent.KOutcome.otherError) SIGUSR1
        [(5 : Int)]).2.2 := by
  refine ⟨by decide, by decide, by decide⟩

/-- C6 (amended): `broadcast(signal)` on a non-empty registry sends the named
control signal to every registered identifier in registry order and never
mutates the registry (also on a target-no-longer-exists result); its summary
reports the attempted total and per-target tallies for the signaled and
already-gone outcomes only — other-error outcomes are warned about
individually but never reported as a tally. -/
theorem c6_broadcast_amended (o : Int → Parent.KOutcome) (sig : Nat)
    (pids : List Int) (h : pids ≠ []) :
    (Parent.signal_all_children o sig pids).1 = pids ∧
    (Parent.signal_all_children o sig pids).2.1 =
      pids.map (fun p => Parent.SendEvent.mk p sig) ∧
    (Parent.signal_all_children o sig pids).2.2 =
      [Parent.ReportedTally.attempted pids.length,
       Parent.ReportedTally.succeeded
         ((pids.filter (fun p => o p == Parent.KOutcome.success)).length),
       Parent.ReportedTally.alreadyGone
         ((pids.filter (fun p => o p == Parent.KOutcome.esrch)).length)] ∧
    (∀ n : Nat, Parent.ReportedTally.otherErrors n ∉
      (Parent.signal_all_children o sig pids).2.2) := by
  have hlen : 0 < pids.length := List.length_pos.mpr h
  have hne : ¬ pids.length = 0 := by omega
  have hrep : Parent.signal_all_children o sig pids =
      (pids, pids.map (fun p => Parent.SendEvent.mk p sig),
       [Parent.ReportedTally.attempted pids.length,
        Parent.ReportedTally.succeeded
          ((pids.filter (fun p => o p == Parent.KOutcome.success)).length),
        Parent.ReportedTally.alreadyGone
          ((pids.filter (fun p => o p == Parent.KOutcome.esrch)).length)]) := by
    unfold Parent.signal_all_children
    rw [if_neg hne]
    dsimp only
    rw [Parent.signal_loop_counts_eq]
  rw [hrep]
  refine ⟨rfl, rfl, rfl, fun n => ?_⟩
  simp

/-- Witness for the amended C6 on a two-entry registry with one delivery
succeeding and one finding the target already gone. -/
theorem c6_broadcast_amended_witness :
    (Parent.signal_all_children
        (fun p => if p = 4 then Parent.KOutcome.success else Parent.KOutcome.esrch)
        SIGUSR2 [(4 : Int), 7]).1 = [(4 : Int), 7] ∧
    (Parent.signal_all_children
        (fun p => if p = 4 then Parent.KOutcome.success else Parent.KOutcome.esrch)
        SIGUSR2 [(4 : Int), 7]).2.1 =
      [Parent.SendEvent.mk 4 SIGUSR2, Parent.SendEvent.mk 7 SIGUSR2] :=
  have h := c6_broadcast_amended
    (fun p => if p = 4 then Parent.KOutcome.success else Parent.KOutcome.esrch)
    SIGUSR2 [(4 : Int), 7] (by decide)
  ⟨h.1, by rw [h.2.1]; decide⟩

/-- C3 counterexample: when the registry is full at a capacity above
`SIZE_MAX / 2`, the capacity-overflow guard of the growth operation aborts
the supervisor directly, without first killing and reaping the just-spawned
orphan — so the kill-and-reap-then-abort behavior does not hold on every
append-failure path. -/
theorem c3_append_failure_counterexample :
    Parent.add_child_pid true 42
      { pids := List.replicate (2 ^ 64 - 1) 0, capacity := 2 ^ 64 - 1 } =
      Parent.AddResult.abortNoKill := by
  unfold Parent.add_child_pid
  rw [if_pos (by rw [List.length_replicate])]
  dsimp only
  rw [if_pos ?hguard]
  case hguard =>
    constructor
    · show Parent.SIZE_MAX / 2 < 2 ^ 64 - 1
      norm_num [Parent.SIZE_MAX]
    · norm_num

/-- C3 (amended): when the append fails because the `realloc` growing the
registry fails, the supervisor first SIGKILLs and reaps the just-spawned
orphan and then aborts; on both capacity-overflow guard paths of the growth
operation — capacity already above `SIZE_MAX / 2`, or the doubled capacity
above `SIZE_MAX / sizeof(pid_t)` — the supervisor aborts without first
killing the orphan. -/
theorem c3_append_failure_amended (alloc_ok : Bool) (pid : Int)
    (r : Parent.Registry) (hfull : r.capacity ≤ r.pids.length) :
    ((¬(r.capacity > Parent.SIZE_MAX / 2 ∧ r.capacity ≠ 0)) →
      (if r.capacity = 0 then Parent.INITIAL_CHILD_CAPACITY
        else r.capacity * 2 % 2 ^ 64) ≤ Parent.SIZE_MAX / Parent.sizeof_pid_t →
      alloc_ok = false →
      Parent.add_child_pid alloc_ok pid r = Parent.AddResult.abortKillReap pid) ∧
    ((r.capacity > Parent.SIZE_MAX / 2 ∧ r.capacity ≠ 0) →
      Parent.add_child_pid alloc_ok pid r = Parent.AddResult.abortNoKill) ∧
    ((¬(r.capacity > Parent.SIZE_MAX / 2 ∧ r.capacity ≠ 0)) →
      (if r.capacity = 0 then Parent.INITIAL_CHILD_CAPACITY
        else r.capacity * 2 % 2 ^ 64) > Parent.SIZE_MAX / Parent.sizeof_pid_t →
      Parent.add_child_pid alloc_ok pid r = Parent.AddResult.abortNoKill) := by
  refine ⟨fun hg1 hg2 ha => ?_, fun hg1 => ?_, fun hg1 hg2 => ?_⟩
  · unfold Parent.add_child_pid
    rw [if_pos hfull]
    dsimp only
    rw [if_neg hg1, if_neg (by omega), if_pos ha]
  · unfold Parent.add_child_pid
    rw [if_pos hfull]
    dsimp only
    rw [if_pos hg1]
  · unfold Parent.add_child_pid
    rw [if_pos hfull]
    dsimp only
    rw [if_neg hg1, if_pos hg2]

/-- Witness for the amended C3: a full one-slot registry whose `realloc`
fails makes `add_child_pid` kill and reap the new pid 9 before aborting, and
a full registry at capacity 2 to the 62 trips the second overflow guard and
aborts without killing the new pid 11. -/
theorem c3_append_failure_amended_witness :
    Parent.add_child_pid false 9 { pids := [(7 : Int)], capacity := 1 } =
      Parent.AddResult.abortKillReap 9 ∧
    Parent.add_child_pid true 11
        { pids := List.replicate (2 ^ 62) 0, capacity := 2 ^ 62 } =
      Parent.AddResult.abortNoKill :=
  ⟨(c3_append_failure_amended false 9 { pids := [(7 : Int)], capacity := 1 }
      (by decide)).1 (by decide) (by decide) rfl,
   (c3_append_failure_amended true 11
        { pids := List.replicate (2 ^ 62) 0, capacity := 2 ^ 62 }
        (by rw [List.length_replicate])).2.2
      (by norm_num [Parent.SIZE_MAX])
      (by norm_num [Parent.SIZE_MAX, Parent.sizeof_pid_t])⟩

/-- C7 counterexample: on SIGINT the supervisor's termination handler does
not only set the termination flag — it also writes a termination notice to
stderr, an output side effect the claim excludes. -/
theorem c7_termination_handler_counterexample :
    (Parent.handle_signal false SIGINT
        { pids := [], capacity := 0, terminate_flag := false }).2 =
      [(Channel.stderrCh, Parent.PMsg.terminationNoticeMsg)] ∧
    (Parent.handle_signal false SIGINT
        { pids := [], capacity := 0, terminate_flag := false }).2 ≠ [] := by
  refine ⟨by decide, by decide⟩

/-- C7 (amended): for every interrupt/terminate/quit-type request the
supervisor's handler sets the termination flag and writes exactly one fixed
termination notice to stderr; it makes no other change to the program state
(registry and capacity are untouched). -/
theorem c7_termination_handler_amended (reap_error : Bool) (sig : Nat)
    (s : Parent.ParentSigState)
    (h : sig = SIGINT ∨ sig = SIGTERM ∨ sig = SIGQUIT) :
    Parent.handle_signal reap_error sig s =
      ({ s with terminate_flag := true },
       [(Channel.stderrCh, Parent.PMsg.terminationNoticeMsg)]) := by
  have hne : ¬ sig = SIGCHLD := by
    rcases h with h | h | h <;> subst h <;> decide
  unfold Parent.handle_signal
  rw [if_neg hne, if_pos h]

/-- Witness for the amended C7 at SIGTERM on a concrete supervisor state. -/
theorem c7_termination_handler_amended_witness :
    Parent.handle_signal true SIGTERM
        { pids := [(3 : Int)], capacity := 8, terminate_flag := false } =
      ({ pids := [(3 : Int)], capacity := 8, terminate_flag := true },
       [(Channel.stderrCh, Parent.PMsg.terminationNoticeMsg)]) :=
  c7_termination_handler_amended true SIGTERM
    { pids := [(3 : Int)], capacity := 8, terminate_flag := false }
    (Or.inr (Or.inl rfl))

/-- C8: `cleanup_resources` is idempotent — for every registry state at the
first invocation (under the program invariant that an unallocated pid array
is empty), invoking it twice gives the same end state as invoking it once,
namely the empty registry with released storage and the terminal restored
from raw mode. -/
theorem c8_cleanup_idempotent (o1 o2 : Int → Parent.KOutcome)
    (s : Parent.SupState)
    (hinv : s.allocated = false → s.pids = [] ∧ s.capacity = 0) :
    Parent.cleanup_resources true true o2
        (Parent.cleanup_resources true true o1 s) =
      Parent.cleanup_resources true true o1 s ∧
    Parent.cleanup_resources true true o1 s =
      { pids := [], capacity := 0, allocated := false, raw_mode := false } := by
  obtain ⟨pids, cap, alloc, raw⟩ := s
  cases alloc with
  | false =>
    obtain ⟨hp, hc⟩ := hinv rfl
    subst hp
    subst hc
    have h1 : Parent.cleanup_resources true true o1
        { pids := [], capacity := 0, allocated := false, raw_mode := raw } =
        { pids := [], capacity := 0, allocated := false, raw_mode := false } := by
      unfold Parent.cleanup_resources Parent.disable_raw_mode
      simp [Parent.kill_all_loop]
    rw [h1]
    exact ⟨rfl, rfl⟩
  | true =>
    have h1 : Parent.cleanup_resources true true o1
        { pids := pids, capacity := cap, allocated := true, raw_mode := raw } =
        { pids := [], capacity := 0, allocated := false, raw_mode := false } := by
      unfold Parent.cleanup_resources Parent.disable_raw_mode
      simp
    rw [h1]
    exact ⟨rfl, rfl⟩

/-- Witness for C8 on a concrete allocated two-child registry in raw mode. -/
theorem c8_cleanup_idempotent_witness :
    Parent.cleanup_resources true true (fun _ => Parent.KOutcome.success)
        (Parent.cleanup_resources true true (fun _ => Parent.KOutcome.otherError)
          { pids := [(3 : Int), 5], capacity := 8, allocated := true, raw_mode := true }) =
      Parent.cleanup_resources true true (fun _ => Parent.KOutcome.otherError)
        { pids := [(3 : Int), 5], capacity := 8, allocated := true, raw_mode := true } ∧
    Parent.cleanup_resources true true (fun _ => Parent.KOutcome.otherError)
        { pids := [(3 : Int), 5], capacity := 8, allocated := true, raw_mode := true } =
      { pids := [], capacity := 0, allocated := false, raw_mode := false } :=
  c8_cleanup_idempotent (fun _ => Parent.KOutcome.otherError)
    (fun _ => Parent.KOutcome.success)
    { pids := [(3 : Int), 5], capacity := 8, allocated := true, raw_mode := true }
    (by decide)
